import Mathlib

/-!
Verification development for the identity and room-admission subsystem of the
collaboration-rooms backend (Django application: `accounts` and `rooms` apps).

Strings are modelled as lists of code points (`List Nat`), and the Python
string primitives used by the source (`str.strip`, `str.lower`, `str.upper`)
are embedded over that representation.  Database state is a record of user,
room and membership rows; each view function is translated directly from the
corresponding Python view.  Randomness (`random.choice`) is modelled by an
explicit stream of draws, and password hashing by storing the raw credential
and comparing for equality (Django `make_password`/`check_password` round-trip).
-/

namespace CollabRooms

/-- Strings as lists of code points (ASCII for all data the backend handles). -/
abbrev Str := List Nat

/-- Code-point list of a Lean string literal, for writing concrete inputs. -/
def strOf (s : String) : Str :=
  s.toList.map Char.toNat

/-- Python `str.isspace` on a single code point (the whitespace class removed
by `str.strip()` with no arguments, restricted to ASCII). -/
def isSpace (c : Nat) : Bool :=
  decide (c = 32 ∨ c = 9 ∨ c = 10 ∨ c = 11 ∨ c = 12 ∨ c = 13)

/-- Python `str.lower` on one code point (ASCII letters). -/
def lowerChar (c : Nat) : Nat :=
  if 65 ≤ c ∧ c ≤ 90 then c + 32 else c

/-- Python `str.upper` on one code point (ASCII letters). -/
def upperChar (c : Nat) : Nat :=
  if 97 ≤ c ∧ c ≤ 122 then c - 32 else c

/-- Python `s.lower()`. -/
def pyLower (s : Str) : Str :=
  s.map lowerChar

/-- Python `s.upper()`. -/
def pyUpper (s : Str) : Str :=
  s.map upperChar

/-- Python `s.strip()`: drop whitespace from both ends. -/
def pyStrip (s : Str) : Str :=
  List.rdropWhile isSpace (List.dropWhile isSpace s)

/-- The normalisation `value.strip().lower()` used by `RegisterSerializer.validate_email`
and by `login_view` on the submitted email. -/
def pyNorm (s : Str) : Str :=
  pyLower (pyStrip s)

/-- `accounts.views._username_from_email`: `email.strip().lower()`. -/
def username_from_email (email : Str) : Str :=
  pyLower (pyStrip email)

/-! ## Data model (rows of the durable store) -/

/-- A row of the Django auth user table, as used by this backend.
`password` holds the stored credential; verification is modelled as equality
of raw credentials (the `make_password`/`check_password` round-trip). -/
structure UserR where
  uid : Nat
  username : Str
  email : Str
  password : Str
deriving DecidableEq

/-- A `rooms.models.Room` row. -/
structure RoomR where
  rid : Nat
  name : Str
  join_code : Str
  created_by : Option Nat
  max_users : Nat
deriving DecidableEq

/-- The durable store: user rows, room rows, membership rows (`RoomMember`,
kept as (room id, user id) pairs), and the next fresh primary keys. -/
structure St where
  users : List UserR
  rooms : List RoomR
  members : List (Nat × Nat)
  nextUid : Nat
  nextRid : Nat
deriving DecidableEq

/-! ## Join-code allocation (`rooms/models.py`) -/

/-- `JOIN_ALPHABET = "ABCDEFGHJKLMNPQRSTUVWXYZ23456789"` as code points. -/
def JOIN_ALPHABET : Str :=
  strOf ("ABCDEFGHJKLMNPQRSTUVWXYZ23456789")

/-- `JOIN_LEN = 8`. -/
def JOIN_LEN : Nat := 8

/-- `generate_join_code()`: eight draws of `random.choice(JOIN_ALPHABET)`.
`rnd i` is the i-th random draw; `random.choice` picks a valid index, modelled
by reducing the draw modulo the alphabet length. -/
def generate_join_code (rnd : Nat → Nat) : Str :=
  (List.range JOIN_LEN).map (fun i => JOIN_ALPHABET.getD (rnd i % JOIN_ALPHABET.length) 0)

/-- The `while True` loop in `Room.save` that assigns a fresh join code:
each iteration generates a candidate and keeps it unless a room with that code
already exists (`Room.objects.filter(join_code=code).exists()`).
`taken` is that existence check, `rnd j` the randomness of iteration `j`,
and `i` the current iteration index.  The source loop is unbounded; `fuel`
only truncates the embedding, with `none` meaning the loop is still running
after `fuel` iterations. -/
def assignJoinCode (taken : Str → Bool) (rnd : Nat → Nat → Nat) : Nat → Nat → Option Str
  | 0, _ => none
  | fuel + 1, i =>
    let c := generate_join_code (rnd i)
    if taken c then assignJoinCode taken rnd fuel (i + 1) else some c

/-! ## Accounts views (`accounts/views.py`) -/

/-- Body of a JSON response from the accounts views: either the
`tokens_for_user` payload (with its embedded user summary) or an error
message string. -/
inductive Payload where
  | tokens (uid : Nat) (email : Str) (username : Str)
  | err (msg : Str)
deriving DecidableEq

/-- Message of the duplicate-email failure (both the serializer pre-check
and the `IntegrityError` handler use this text). -/
def dupMsg : Str :=
  strOf ("Email already in use.")

/-- Message of the short-password failure. -/
def weakMsg : Str :=
  strOf ("Password must be at least 8 characters.")

/-- Message of the failed-login response. -/
def invalidMsg : Str :=
  strOf ("Invalid credentials.")

/-- `User.objects.create_user(username=_username_from_email(email), email=email, password=password)`
under the unique constraint on `username`: `none` models the `IntegrityError`
raised when the username is already taken; otherwise the new row is appended. -/
def create_user (st : St) (email password : Str) : Option (UserR × St) :=
  let uname := username_from_email email
  if st.users.any (fun u => decide (u.username = uname)) then none
  else
    let u : UserR := ⟨st.nextUid, uname, email, password⟩
    some (u, { st with users := st.users ++ [u], nextUid := st.nextUid + 1 })

/-- The insert phase of `register_view`: attempt `create_user` inside
`transaction.atomic()`; an `IntegrityError` is mapped to HTTP 400 with the
duplicate message, success to HTTP 201 with `tokens_for_user(user)`. -/
def register_insert (st : St) (email password : Str) : St × (Nat × Payload) :=
  match create_user st email password with
  | none => (st, (400, Payload.err dupMsg))
  | some (u, st2) => (st2, (201, Payload.tokens u.uid u.email u.username))

/-- `register_view`: serializer validation (duplicate pre-check on the
normalised email, minimum password length, then the pluggable strength
validator `pwOk`), followed by the insert phase.  Returns the resulting
store and the HTTP response (status, payload). -/
def register_view (pwOk : Str → Bool) (st : St) (emailIn passwordIn : Str) : St × (Nat × Payload) :=
  let email := pyNorm emailIn
  if st.users.any (fun u => decide (u.email = email)) then (st, (400, Payload.err dupMsg))
  else if passwordIn.length < 8 then (st, (400, Payload.err weakMsg))
  else if pwOk passwordIn then register_insert st email passwordIn
  else (st, (400, Payload.err weakMsg))

/-- `login_view`: normalises the submitted email, then
`authenticate(username=_username_from_email(email), password=password)`,
which the default `ModelBackend` resolves as a lookup on the `username`
column followed by password verification.  Both lookup failure and password
failure flow into the single `if not user` branch. -/
def login_view (st : St) (emailIn passwordIn : Str) : Nat × Payload :=
  let email := pyNorm emailIn
  match st.users.find? (fun u => decide (u.username = username_from_email email)) with
  | none => (401, Payload.err invalidMsg)
  | some u =>
    if u.password = passwordIn then (200, Payload.tokens u.uid u.email u.username)
    else (401, Payload.err invalidMsg)

/-! ## Rooms views (`rooms/views.py`) -/

/-- Outcome of `RoomViewSet.create`.  `looping` marks the join-code loop not
having terminated within the modelled fuel (the source loop is unbounded);
`storageError` marks the membership insert raising after the room insert
already committed (each ORM call runs in autocommit; this view, unlike
`register_view`, opens no transaction). -/
inductive CreateOutcome where
  | created (rid : Nat) (code : Str)
  | looping
  | storageError
deriving DecidableEq

/-- `RoomViewSet.create`: insert the Room row (join code assigned by the
`Room.save` loop), then `RoomMember.objects.get_or_create(room, user)`.
`memberInsertOk` models whether the storage engine completes that second,
separate insert; when it raises, the exception propagates (HTTP 500) but the
already-committed room row remains. -/
def create_view (st : St) (uid : Nat) (name : Str) (rnd : Nat → Nat → Nat) (fuel : Nat)
    (memberInsertOk : Bool) : St × CreateOutcome :=
  match assignJoinCode (fun c => st.rooms.any (fun r => decide (r.join_code = c))) rnd fuel 0 with
  | none => (st, CreateOutcome.looping)
  | some code =>
    let room : RoomR := ⟨st.nextRid, name, code, some uid, 10⟩
    let st1 : St := { st with rooms := st.rooms ++ [room], nextRid := st.nextRid + 1 }
    if memberInsertOk then
      let st2 : St :=
        if (room.rid, uid) ∈ st1.members then st1
        else { st1 with members := st1.members ++ [(room.rid, uid)] }
      (st2, CreateOutcome.created room.rid code)
    else (st1, CreateOutcome.storageError)

/-- Body of a JSON response from `RoomViewSet.join`. -/
inductive JoinPayload where
  | room (rid : Nat)
  | err (msg : Str)
deriving DecidableEq

/-- `RoomViewSet.join`: trim and upper-case the submitted code, look the room
up by exact code match (`Room.objects.get(join_code=code)`), 404 on
`Room.DoesNotExist`, otherwise `get_or_create` the membership row and answer
200 with the room payload. -/
def join_view (st : St) (uid : Nat) (codeIn : Str) : St × (Nat × JoinPayload) :=
  let code := pyUpper (pyStrip codeIn)
  match st.rooms.find? (fun r => decide (r.join_code = code)) with
  | none => (st, (404, JoinPayload.err (strOf ("invalid-code"))))
  | some r =>
    let st1 : St :=
      if (r.rid, uid) ∈ st.members then st
      else { st with members := st.members ++ [(r.rid, uid)] }
    (st1, (200, JoinPayload.room r.rid))

/-! ## String-normalisation lemmas -/

theorem lowerChar_idem (c : Nat) : lowerChar (lowerChar c) = lowerChar c := by
  unfold lowerChar
  by_cases h : 65 ≤ c ∧ c ≤ 90
  · rw [if_pos h, if_neg (by omega)]
  · rw [if_neg h, if_neg h]

theorem isSpace_lowerChar (c : Nat) : isSpace (lowerChar c) = isSpace c := by
  unfold isSpace lowerChar
  by_cases h : 65 ≤ c ∧ c ≤ 90
  · rw [if_pos h, decide_eq_decide]
    omega
  · rw [if_neg h]

theorem pyLower_idem (s : Str) : pyLower (pyLower s) = pyLower s := by
  unfold pyLower
  rw [List.map_map]
  exact List.map_congr_left (fun a _ => lowerChar_idem a)

theorem dropWhile_pyLower (s : Str) :
    List.dropWhile isSpace (pyLower s) = pyLower (List.dropWhile isSpace s) := by
  unfold pyLower
  rw [List.dropWhile_map]
  have h : (isSpace ∘ lowerChar) = isSpace := funext isSpace_lowerChar
  rw [h]

theorem pyStrip_pyLower (s : Str) : pyStrip (pyLower s) = pyLower (pyStrip s) := by
  unfold pyStrip
  rw [dropWhile_pyLower]
  unfold pyLower
  rw [List.rdropWhile, List.rdropWhile, ← List.map_reverse, List.dropWhile_map]
  have h : (isSpace ∘ lowerChar) = isSpace := funext isSpace_lowerChar
  rw [h, List.map_reverse]

theorem dropWhile_head_not (p : Nat → Bool) (l : List Nat) (a : Nat) (t : List Nat)
    (h : List.dropWhile p l = a :: t) : p a = false := by
  induction l with
  | nil => simp [List.dropWhile] at h
  | cons b l ih =>
    rw [List.dropWhile_cons] at h
    by_cases hb : p b = true
    · rw [if_pos hb] at h
      exact ih h
    · rw [if_neg hb] at h
      injection h with h1 h2
      subst h1
      simpa using hb

theorem dropWhile_rdropWhile_self (p : Nat → Bool) (u : List Nat)
    (hdu : List.dropWhile p u = u) :
    List.dropWhile p (List.rdropWhile p u) = List.rdropWhile p u := by
  cases hv : List.rdropWhile p u with
  | nil => simp
  | cons a v =>
    obtain ⟨t, ht⟩ := List.rdropWhile_prefix p u
    rw [hv] at ht
    have hu2 : List.dropWhile p u = a :: (v ++ t) := by
      rw [hdu, ← ht]
      simp
    have ha : p a = false := dropWhile_head_not p u a (v ++ t) hu2
    rw [List.dropWhile_cons, if_neg (by simp [ha])]

theorem pyStrip_idem (s : Str) : pyStrip (pyStrip s) = pyStrip s := by
  unfold pyStrip
  rw [dropWhile_rdropWhile_self isSpace (List.dropWhile isSpace s)
    (List.dropWhile_idempotent isSpace s)]
  exact List.rdropWhile_idempotent isSpace (List.dropWhile isSpace s)

theorem pyNorm_idem (s : Str) : pyNorm (pyNorm s) = pyNorm s := by
  unfold pyNorm
  rw [pyStrip_pyLower, pyStrip_idem]
  exact pyLower_idem (pyStrip s)

theorem username_from_email_eq_pyNorm (s : Str) : username_from_email s = pyNorm s := rfl

/-! ## Generic list helpers -/

theorem getD_mem_of_lt (l : List Nat) (k d : Nat) (h : k < l.length) : l.getD k d ∈ l := by
  rw [List.getD_eq_getElem?_getD, List.getElem?_eq_getElem h]
  exact List.getElem_mem h

theorem assignJoinCode_none_of_taken (taken : Str → Bool) (rnd : Nat → Nat → Nat)
    (h : ∀ c, taken c = true) : ∀ fuel i, assignJoinCode taken rnd fuel i = none := by
  intro fuel
  induction fuel with
  | zero => intro i; rfl
  | succ n ih =>
    intro i
    simp only [assignJoinCode, h, if_true]
    exact ih (i + 1)

theorem assignJoinCode_some_fresh (taken : Str → Bool) (rnd : Nat → Nat → Nat) :
    ∀ fuel i c, assignJoinCode taken rnd fuel i = some c → taken c = false := by
  intro fuel
  induction fuel with
  | zero => intro i c h; exact Option.noConfusion h
  | succ n ih =>
    intro i c h
    simp only [assignJoinCode] at h
    by_cases ht : taken (generate_join_code (rnd i)) = true
    · rw [if_pos ht] at h
      exact ih (i + 1) c h
    · rw [if_neg ht] at h
      injection h with h1
      rw [← h1]
      exact Bool.eq_false_iff.mpr ht

theorem assignJoinCode_isSome_iff (taken : Str → Bool) (rnd : Nat → Nat → Nat) :
    ∀ fuel i, ((assignJoinCode taken rnd fuel i).isSome = true
      ↔ ∃ j, j < fuel ∧ taken (generate_join_code (rnd (i + j))) = false) := by
  intro fuel
  induction fuel with
  | zero =>
    intro i
    simp [assignJoinCode]
  | succ n ih =>
    intro i
    simp only [assignJoinCode]
    by_cases ht : taken (generate_join_code (rnd i)) = true
    · rw [if_pos ht, ih (i + 1)]
      constructor
      · rintro ⟨j, hj, hf⟩
        refine ⟨j + 1, by omega, ?_⟩
        have e : i + (j + 1) = i + 1 + j := by omega
        rw [e]
        exact hf
      · rintro ⟨j, hj, hf⟩
        cases j with
        | zero =>
          rw [Nat.add_zero] at hf
          rw [hf] at ht
          exact Bool.noConfusion ht
        | succ k =>
          refine ⟨k, by omega, ?_⟩
          have e : i + 1 + k = i + (k + 1) := by omega
          rw [e]
          exact hf
    · rw [if_neg ht]
      simp only [Option.isSome_some, true_iff]
      exact ⟨0, by omega, by simpa using Bool.eq_false_iff.mpr ht⟩

theorem login_view_eq_of_find?_none (st : St) (e p : Str)
    (h : st.users.find? (fun u => decide (u.username = username_from_email (pyNorm e))) = none) :
    login_view st e p = (401, Payload.err invalidMsg) := by
  simp only [login_view]
  rw [h]

theorem login_view_eq_of_find?_some (st : St) (e p : Str) (u : UserR)
    (h : st.users.find? (fun v => decide (v.username = username_from_email (pyNorm e))) = some u) :
    login_view st e p
      = (if u.password = p then (200, Payload.tokens u.uid u.email u.username)
          else (401, Payload.err invalidMsg)) := by
  simp only [login_view]
  rw [h]

/-! ## Claim theorems -/

/-- C1 counterexample: the fixed alphabet `JOIN_ALPHABET` that join-code
characters are drawn from has 32 symbols, not 33 as the claim states. -/
theorem C1_counterexample : JOIN_ALPHABET.length = 32 ∧ ¬ JOIN_ALPHABET.length = 33 := by
  decide

/-- C1 (amended): every join code produced by `generate_join_code` is exactly
8 characters long, each character drawn from the fixed 32-symbol alphabet,
which excludes the visually ambiguous characters 0, O, 1 and I; this holds
for every stream of random draws. -/
theorem C1_join_code_shape (rnd : Nat → Nat) :
    (generate_join_code rnd).length = 8
    ∧ (generate_join_code rnd).all (fun c => decide (c ∈ JOIN_ALPHABET)) = true
    ∧ JOIN_ALPHABET.length = 32
    ∧ decide (48 ∈ JOIN_ALPHABET) = false ∧ decide (79 ∈ JOIN_ALPHABET) = false
    ∧ decide (49 ∈ JOIN_ALPHABET) = false ∧ decide (73 ∈ JOIN_ALPHABET) = false := by
  refine ⟨?_, ?_, by decide, by decide, by decide, by decide, by decide⟩
  · simp [generate_join_code, JOIN_LEN]
  · rw [List.all_eq_true]
    intro c hc
    simp only [generate_join_code, List.mem_map, List.mem_range] at hc
    obtain ⟨i, hi, rfl⟩ := hc
    have hlt : rnd i % JOIN_ALPHABET.length < JOIN_ALPHABET.length :=
      Nat.mod_lt _ (by decide)
    exact decide_eq_true (getD_mem_of_lt JOIN_ALPHABET (rnd i % JOIN_ALPHABET.length) 0 hlt)

/-- C2 counterexample: the join-code assignment loop of `Room.save` has no
retry cap and no exhaustion failure.  Against a store in which every
candidate code is already taken, the loop completes no number of iterations
with a result — it loops forever instead of failing with
`AllocationExhausted` (no such outcome exists in the code). -/
theorem C2_counterexample :
    ¬ ∃ fuel i c, assignJoinCode (fun _ => true) (fun _ _ => 0) fuel i = some c := by
  rintro ⟨fuel, i, c, h⟩
  rw [assignJoinCode_none_of_taken (fun _ => true) (fun _ _ => 0) (fun _ => rfl) fuel i] at h
  exact Option.noConfusion h

/-- C2 (amended): the join-code assignment loop retries on collision without
any retry cap and has no `AllocationExhausted` outcome; any code it returns
is not an existing room's code, and it terminates within a number of
iterations exactly when some draw within that number yields a code that is
not already taken. -/
theorem C2_allocation_unbounded (taken : Str → Bool) (rnd : Nat → Nat → Nat) (fuel i : Nat) :
    (∀ c, assignJoinCode taken rnd fuel i = some c → taken c = false)
    ∧ ((assignJoinCode taken rnd fuel i).isSome = true
        ↔ ∃ j, j < fuel ∧ taken (generate_join_code (rnd (i + j))) = false) :=
  ⟨fun c h => assignJoinCode_some_fresh taken rnd fuel i c h,
   assignJoinCode_isSome_iff taken rnd fuel i⟩

/-- Witness for C2 (amended) at a concrete store and draw stream. -/
theorem C2_allocation_unbounded_witness :
    ((fun _ => false) : Str → Bool) (generate_join_code (fun _ => 0)) = false
    ∧ (assignJoinCode (fun _ => false) (fun _ _ => 0) 1 0).isSome = true := by
  constructor
  · exact (C2_allocation_unbounded (fun _ => false) (fun _ _ => 0) 1 0).1
      (generate_join_code (fun _ => 0)) (by rfl)
  · exact ((C2_allocation_unbounded (fun _ => false) (fun _ _ => 0) 1 0).2).mpr
      ⟨0, by omega, rfl⟩

/-- C3 counterexample: `RoomViewSet.create` opens no transaction around the
two inserts; when the storage engine fails the membership insert after the
room insert has committed, the final store has a Room row and no Membership
row — neither "both exist" nor "neither exists". -/
theorem C3_counterexample :
    ¬ (((create_view ⟨[], [], [], 0, 0⟩ 1 (strOf ("Team")) (fun _ _ => 0) 1 false).1.rooms ≠ []
          ∧ (create_view ⟨[], [], [], 0, 0⟩ 1 (strOf ("Team")) (fun _ _ => 0) 1 false).1.members ≠ [])
        ∨ ((create_view ⟨[], [], [], 0, 0⟩ 1 (strOf ("Team")) (fun _ _ => 0) 1 false).1.rooms = []
          ∧ (create_view ⟨[], [], [], 0, 0⟩ 1 (strOf ("Team")) (fun _ _ => 0) 1 false).1.members = [])) := by
  decide

/-- C3 (amended): when every storage operation succeeds, createRoom leaves
both the Room row and the creator's Membership row; but the two inserts are
not atomic — if the membership insert fails after the room insert, the Room
row persists with no membership added. -/
theorem C3_create_not_atomic (st : St) (uid : Nat) (name : Str) (rnd : Nat → Nat → Nat)
    (fuel : Nat) :
    (∀ st2 rid code, create_view st uid name rnd fuel true = (st2, CreateOutcome.created rid code) →
        (∃ r ∈ st2.rooms, r.rid = rid ∧ r.join_code = code ∧ r.created_by = some uid)
        ∧ (rid, uid) ∈ st2.members)
    ∧ (∀ st2, create_view st uid name rnd fuel false = (st2, CreateOutcome.storageError) →
        st2.members = st.members
        ∧ ∃ r ∈ st2.rooms, r.rid = st.nextRid ∧ r.created_by = some uid) := by
  constructor
  · intro st2 rid code h
    simp only [create_view] at h
    cases halloc : assignJoinCode (fun c => st.rooms.any fun r => decide (r.join_code = c))
        rnd fuel 0 with
    | none =>
      rw [halloc] at h
      simp at h
    | some code2 =>
      rw [halloc] at h
      simp only [if_true] at h
      by_cases hmem : (st.nextRid, uid) ∈ st.members
      · rw [if_pos hmem] at h
        obtain ⟨h1, h2⟩ := Prod.mk.injEq .. ▸ h
        injection h2 with hrid hcode
        refine ⟨⟨⟨st.nextRid, name, code2, some uid, 10⟩, ?_, ?_, ?_, rfl⟩, ?_⟩
        · rw [← h1]; simp
        · exact hrid
        · exact hcode
        · rw [← h1, ← hrid]; exact hmem
      · rw [if_neg hmem] at h
        obtain ⟨h1, h2⟩ := Prod.mk.injEq .. ▸ h
        injection h2 with hrid hcode
        refine ⟨⟨⟨st.nextRid, name, code2, some uid, 10⟩, ?_, ?_, ?_, rfl⟩, ?_⟩
        · rw [← h1]; simp
        · exact hrid
        · exact hcode
        · rw [← h1, ← hrid]; simp
  · intro st2 h
    simp only [create_view] at h
    cases halloc : assignJoinCode (fun c => st.rooms.any fun r => decide (r.join_code = c))
        rnd fuel 0 with
    | none =>
      rw [halloc] at h
      simp at h
    | some code2 =>
      rw [halloc] at h
      simp only [Bool.false_eq_true, if_false] at h
      obtain ⟨h1, _⟩ := Prod.mk.injEq .. ▸ h
      refine ⟨by rw [← h1], ⟨st.nextRid, name, code2, some uid, 10⟩, ?_, rfl, rfl⟩
      rw [← h1]
      simp

/-- Witness for C3 (amended) at a concrete store, for both the all-succeed
run and the membership-insert-failure run. -/
theorem C3_create_not_atomic_witness :
    ((∃ r ∈ (create_view ⟨[], [], [], 0, 0⟩ 1 (strOf ("Team")) (fun _ _ => 0) 1 true).1.rooms,
        r.rid = 0 ∧ r.join_code = strOf ("AAAAAAAA") ∧ r.created_by = some 1)
      ∧ (0, 1) ∈ (create_view ⟨[], [], [], 0, 0⟩ 1 (strOf ("Team")) (fun _ _ => 0) 1 true).1.members)
    ∧ ((create_view ⟨[], [], [], 0, 0⟩ 1 (strOf ("Team")) (fun _ _ => 0) 1 false).1.members = []
      ∧ ∃ r ∈ (create_view ⟨[], [], [], 0, 0⟩ 1 (strOf ("Team")) (fun _ _ => 0) 1 false).1.rooms,
          r.rid = 0 ∧ r.created_by = some 1) := by
  constructor
  · exact (C3_create_not_atomic ⟨[], [], [], 0, 0⟩ 1 (strOf ("Team")) (fun _ _ => 0) 1).1
      (create_view ⟨[], [], [], 0, 0⟩ 1 (strOf ("Team")) (fun _ _ => 0) 1 true).1
      0 (strOf ("AAAAAAAA")) (by decide)
  · exact (C3_create_not_atomic ⟨[], [], [], 0, 0⟩ 1 (strOf ("Team")) (fun _ _ => 0) 1).2
      (create_view ⟨[], [], [], 0, 0⟩ 1 (strOf ("Team")) (fun _ _ => 0) 1 false).1
      (by decide)

/-- C4 (code-bug evidence): for the legacy identity created by the repository's
own test `test_login_supports_legacy_usernames` (username `legacy-user`,
email `legacy@example.com`), logging in with the correct password and the
email `LEGACY@example.com` is rejected with 401 Invalid credentials —
`login_view` performs a single lookup keyed on the normalised email as
username, with no fallback to the legacy display handle, so the test's
expected 200 cannot occur. -/
theorem C4_legacy_login_fails :
    login_view
      ⟨[⟨1, strOf ("legacy-user"), strOf ("legacy@example.com"), strOf ("LegacyPass123!")⟩],
        [], [], 2, 0⟩
      (strOf ("LEGACY@example.com")) (strOf ("LegacyPass123!"))
    = (401, Payload.err invalidMsg) := by
  decide

/-- C5: registering an email and then logging in with the same password and
the same email in any letter case (and any surrounding whitespace) succeeds
and returns the `tokens_for_user` payload with the same identity id (and
summary) that registration returned. -/
theorem C5_register_then_login (pwOk : Str → Bool) (st st2 : St) (e e2 p : Str)
    (uid : Nat) (em un : Str)
    (hreg : register_view pwOk st e p = (st2, (201, Payload.tokens uid em un)))
    (hcase : pyNorm e2 = pyNorm e) :
    login_view st2 e2 p = (200, Payload.tokens uid em un) := by
  simp only [register_view] at hreg
  by_cases h1 : st.users.any (fun u => decide (u.email = pyNorm e)) = true
  · rw [if_pos h1] at hreg
    simp at hreg
  rw [if_neg h1] at hreg
  by_cases h2 : p.length < 8
  · rw [if_pos h2] at hreg
    simp at hreg
  rw [if_neg h2] at hreg
  by_cases h3 : pwOk p = true
  swap
  · rw [if_neg h3] at hreg
    simp at hreg
  rw [if_pos h3] at hreg
  simp only [register_insert, create_user] at hreg
  by_cases h4 : st.users.any (fun u => decide (u.username = username_from_email (pyNorm e))) = true
  · rw [if_pos h4] at hreg
    simp at hreg
  rw [if_neg h4] at hreg
  injection hreg with hst hresp
  injection hresp with _ hpl
  injection hpl with huid hem hun
  have hkeys : username_from_email (pyNorm e2) = username_from_email (pyNorm e) := by
    rw [username_from_email_eq_pyNorm, username_from_email_eq_pyNorm, hcase]
  have hnone :
      st.users.find? (fun v => decide (v.username = username_from_email (pyNorm e))) = none := by
    rw [List.find?_eq_none]
    intro x hx
    rw [List.any_eq_true] at h4
    simpa using fun hEq => h4 ⟨x, hx, by simpa using hEq⟩
  have hfind :
      st2.users.find? (fun v => decide (v.username = username_from_email (pyNorm e2)))
        = some ⟨st.nextUid, username_from_email (pyNorm e), pyNorm e, p⟩ := by
    rw [← hst]
    show (st.users ++ [(⟨st.nextUid, username_from_email (pyNorm e), pyNorm e, p⟩ : UserR)]).find?
        (fun v => decide (v.username = username_from_email (pyNorm e2))) = _
    simp only [hkeys]
    rw [List.find?_append, hnone, Option.none_or,
      List.find?_cons_of_pos _ (by simp)]
  rw [login_view_eq_of_find?_some st2 e2 p
    ⟨st.nextUid, username_from_email (pyNorm e), pyNorm e, p⟩ hfind]
  rw [if_pos rfl]
  rw [← huid, ← hem, ← hun]

/-- Witness for C5 at a concrete register-then-login run with a
case-changed email. -/
theorem C5_register_then_login_witness :
    register_view (fun _ => true) ⟨[], [], [], 0, 0⟩ (strOf ("A@X.com")) (strOf ("GoodPass123!"))
      = (⟨[⟨0, strOf ("a@x.com"), strOf ("a@x.com"), strOf ("GoodPass123!")⟩], [], [], 1, 0⟩,
          (201, Payload.tokens 0 (strOf ("a@x.com")) (strOf ("a@x.com"))))
    ∧ login_view ⟨[⟨0, strOf ("a@x.com"), strOf ("a@x.com"), strOf ("GoodPass123!")⟩], [], [], 1, 0⟩
        (strOf (" a@x.COM ")) (strOf ("GoodPass123!"))
      = (200, Payload.tokens 0 (strOf ("a@x.com")) (strOf ("a@x.com"))) := by
  constructor
  · decide
  · exact C5_register_then_login (fun _ => true) ⟨[], [], [], 0, 0⟩
      ⟨[⟨0, strOf ("a@x.com"), strOf ("a@x.com"), strOf ("GoodPass123!")⟩], [], [], 1, 0⟩
      (strOf ("A@X.com")) (strOf (" a@x.COM ")) (strOf ("GoodPass123!"))
      0 (strOf ("a@x.com")) (strOf ("a@x.com")) (by decide) (by decide)

/-- C6: registering an email whose normalised form already belongs to an
existing identity fails with the duplicate-identity error (HTTP 400) for any
case combination; and in the check-then-create race where both calls pass
the pre-check on the same store, the first insert succeeds and the second
hits the storage unique constraint (`IntegrityError`), which the insert
phase maps to the same 400 duplicate outcome — exactly one succeeds. -/
theorem C6_duplicate_registration (pwOk : Str → Bool) (st : St) (e e2 p p2 : Str) :
    (∀ u, u ∈ st.users → u.email = pyNorm e →
        register_view pwOk st e p = (st, (400, Payload.err dupMsg)))
    ∧ ((∀ v, v ∈ st.users → v.email ≠ pyNorm e) →
        (∀ v, v ∈ st.users → v.username ≠ pyNorm e) →
        pyNorm e2 = pyNorm e →
        ∃ st1, register_insert st (pyNorm e) p
            = (st1, (201, Payload.tokens st.nextUid (pyNorm e) (pyNorm e)))
          ∧ register_insert st1 (pyNorm e2) p2 = (st1, (400, Payload.err dupMsg))) := by
  constructor
  · intro u hu he
    simp only [register_view]
    rw [if_pos (List.any_eq_true.mpr ⟨u, hu, decide_eq_true he⟩)]
  · intro hpre hpre2 hnorm
    have hkey : username_from_email (pyNorm e) = pyNorm e := by
      rw [username_from_email_eq_pyNorm, pyNorm_idem]
    refine ⟨⟨st.users ++ [⟨st.nextUid, pyNorm e, pyNorm e, p⟩], st.rooms, st.members,
        st.nextUid + 1, st.nextRid⟩, ?_, ?_⟩
    · simp only [register_insert, create_user, hkey]
      rw [if_neg (by
        rw [List.any_eq_true]
        rintro ⟨v, hv, hvk⟩
        exact hpre2 v hv (of_decide_eq_true hvk))]
    · have hkey2 : username_from_email (pyNorm e2) = pyNorm e := by
        rw [username_from_email_eq_pyNorm, pyNorm_idem, hnorm]
      simp only [register_insert, create_user, hkey2]
      rw [if_pos (List.any_eq_true.mpr
        ⟨⟨st.nextUid, pyNorm e, pyNorm e, p⟩, by simp, by simp⟩)]

/-- Witness for C6 at concrete stores: a case-changed duplicate registration
against an existing identity, and the two-racer insert race from an empty
store. -/
theorem C6_duplicate_registration_witness :
    register_view (fun _ => true)
        ⟨[⟨0, strOf ("dup@example.com"), strOf ("dup@example.com"), strOf ("MyStrongPass123!")⟩],
          [], [], 1, 0⟩
        (strOf ("DUP@Example.com")) (strOf ("OtherPass123!"))
      = (⟨[⟨0, strOf ("dup@example.com"), strOf ("dup@example.com"), strOf ("MyStrongPass123!")⟩],
            [], [], 1, 0⟩, (400, Payload.err dupMsg))
    ∧ ∃ st1, register_insert ⟨[], [], [], 0, 0⟩ (pyNorm (strOf ("A@X.com"))) (strOf ("GoodPass123!"))
          = (st1, (201, Payload.tokens 0 (pyNorm (strOf ("A@X.com"))) (pyNorm (strOf ("A@X.com")))))
        ∧ register_insert st1 (pyNorm (strOf ("a@x.COM"))) (strOf ("RacerPass123!"))
          = (st1, (400, Payload.err dupMsg)) := by
  constructor
  · exact (C6_duplicate_registration (fun _ => true)
      ⟨[⟨0, strOf ("dup@example.com"), strOf ("dup@example.com"), strOf ("MyStrongPass123!")⟩],
        [], [], 1, 0⟩
      (strOf ("DUP@Example.com")) (strOf ("x")) (strOf ("OtherPass123!")) (strOf ("y"))).1
      ⟨0, strOf ("dup@example.com"), strOf ("dup@example.com"), strOf ("MyStrongPass123!")⟩
      (by decide) (by decide)
  · exact (C6_duplicate_registration (fun _ => true) ⟨[], [], [], 0, 0⟩
      (strOf ("A@X.com")) (strOf ("a@x.COM")) (strOf ("GoodPass123!")) (strOf ("RacerPass123!"))).2
      (by intro v hv; cases hv) (by intro v hv; cases hv) (by decide)

/-- C9: failed authentication is undifferentiated — a login whose normalised
email matches no identity's username key and a login that resolves an
identity but fails password verification produce identical responses:
the same 401 status with the same Invalid-credentials message. -/
theorem C9_undifferentiated_failure (st1 st2 : St) (e1 p1 e2 p2 : Str) (u : UserR)
    (h1 : st1.users.find? (fun v => decide (v.username = username_from_email (pyNorm e1))) = none)
    (h2 : st2.users.find? (fun v => decide (v.username = username_from_email (pyNorm e2))) = some u)
    (h3 : u.password ≠ p2) :
    login_view st1 e1 p1 = login_view st2 e2 p2
    ∧ login_view st1 e1 p1 = (401, Payload.err invalidMsg) := by
  have hl1 : login_view st1 e1 p1 = (401, Payload.err invalidMsg) :=
    login_view_eq_of_find?_none st1 e1 p1 h1
  have hl2 : login_view st2 e2 p2 = (401, Payload.err invalidMsg) := by
    rw [login_view_eq_of_find?_some st2 e2 p2 u h2, if_neg h3]
  exact ⟨hl1.trans hl2.symm, hl1⟩

/-- Witness for C9: unknown email against an empty store versus wrong
password against a store holding the identity. -/
theorem C9_undifferentiated_failure_witness :
    login_view ⟨[], [], [], 0, 0⟩ (strOf ("ghost@example.com")) (strOf ("whatever123"))
      = login_view ⟨[⟨0, strOf ("user@example.com"), strOf ("user@example.com"),
          strOf ("CorrectPass123!")⟩], [], [], 1, 0⟩
        (strOf ("user@example.com")) (strOf ("wrongpass"))
    ∧ login_view ⟨[], [], [], 0, 0⟩ (strOf ("ghost@example.com")) (strOf ("whatever123"))
      = (401, Payload.err invalidMsg) :=
  C9_undifferentiated_failure ⟨[], [], [], 0, 0⟩
    ⟨[⟨0, strOf ("user@example.com"), strOf ("user@example.com"), strOf ("CorrectPass123!")⟩],
      [], [], 1, 0⟩
    (strOf ("ghost@example.com")) (strOf ("whatever123"))
    (strOf ("user@example.com")) (strOf ("wrongpass"))
    ⟨0, strOf ("user@example.com"), strOf ("user@example.com"), strOf ("CorrectPass123!")⟩
    (by decide) (by decide) (by decide)

/-- C10: every identity created through `register_view` stores its username
equal to its (normalised) email — the two fields coincide — and `login_view`
resolves the submitted email against the `username` field: a successful
login's identity has the normalised email as its username, and when no
identity's username matches the key the login fails even if an email
field matches. -/
theorem C10_username_email_coincide (pwOk : Str → Bool) (st : St) (e p : Str) :
    (∀ st2 uid em un, register_view pwOk st e p = (st2, (201, Payload.tokens uid em un)) →
        un = em ∧ em = pyNorm e
        ∧ ∃ u, u ∈ st2.users ∧ u.uid = uid ∧ u.username = un ∧ u.email = em)
    ∧ (∀ uid em un, login_view st e p = (200, Payload.tokens uid em un) →
        ∃ u, u ∈ st.users ∧ u.uid = uid ∧ u.username = pyNorm e)
    ∧ ((∀ u, u ∈ st.users → u.username ≠ pyNorm e) →
        login_view st e p = (401, Payload.err invalidMsg)) := by
  have hkey : username_from_email (pyNorm e) = pyNorm e := by
    rw [username_from_email_eq_pyNorm, pyNorm_idem]
  refine ⟨?_, ?_, ?_⟩
  · intro st2 uid em un hreg
    simp only [register_view] at hreg
    by_cases h1 : st.users.any (fun u => decide (u.email = pyNorm e)) = true
    · rw [if_pos h1] at hreg
      simp at hreg
    rw [if_neg h1] at hreg
    by_cases h2 : p.length < 8
    · rw [if_pos h2] at hreg
      simp at hreg
    rw [if_neg h2] at hreg
    by_cases h3 : pwOk p = true
    swap
    · rw [if_neg h3] at hreg
      simp at hreg
    rw [if_pos h3] at hreg
    simp only [register_insert, create_user, hkey] at hreg
    by_cases h4 : st.users.any (fun u => decide (u.username = pyNorm e)) = true
    · rw [if_pos h4] at hreg
      simp at hreg
    rw [if_neg h4] at hreg
    injection hreg with hst hresp
    injection hresp with _ hpl
    injection hpl with huid hem hun
    refine ⟨hun.symm.trans hem, hem.symm, ⟨st.nextUid, pyNorm e, pyNorm e, p⟩, ?_, huid, hun, hem⟩
    rw [← hst]
    simp
  · intro uid em un hlog
    cases hf : st.users.find? (fun u => decide (u.username = username_from_email (pyNorm e))) with
    | none =>
      rw [login_view_eq_of_find?_none st e p hf] at hlog
      simp at hlog
    | some u =>
      rw [login_view_eq_of_find?_some st e p u hf] at hlog
      by_cases hp : u.password = p
      · rw [if_pos hp] at hlog
        injection hlog with _ hpl
        injection hpl with huid _ _
        refine ⟨u, List.mem_of_find?_eq_some hf, huid, ?_⟩
        have h5 := List.find?_some hf
        simp only [decide_eq_true_eq] at h5
        rwa [hkey] at h5
      · rw [if_neg hp] at hlog
        simp at hlog
  · intro hnone
    exact login_view_eq_of_find?_none st e p (List.find?_eq_none.mpr (by
      intro x hx
      simp only [hkey, decide_eq_true_eq]
      exact hnone x hx))

/-- Witness for C10: a concrete successful registration, a concrete
successful login, and a login against a store whose identity has a matching
email but a different username (the legacy shape), which fails. -/
theorem C10_username_email_coincide_witness :
    (strOf ("a@x.com") = strOf ("a@x.com") ∧ strOf ("a@x.com") = pyNorm (strOf ("A@X.com"))
      ∧ ∃ u, u ∈ (⟨[⟨0, strOf ("a@x.com"), strOf ("a@x.com"), strOf ("GoodPass123!")⟩],
            [], [], 1, 0⟩ : St).users
          ∧ u.uid = 0 ∧ u.username = strOf ("a@x.com") ∧ u.email = strOf ("a@x.com"))
    ∧ (∃ u, u ∈ (⟨[⟨0, strOf ("a@x.com"), strOf ("a@x.com"), strOf ("GoodPass123!")⟩],
            [], [], 1, 0⟩ : St).users
        ∧ u.uid = 0 ∧ u.username = pyNorm (strOf ("A@X.com")))
    ∧ login_view ⟨[⟨1, strOf ("legacy-user"), strOf ("legacy@example.com"),
          strOf ("LegacyPass123!")⟩], [], [], 2, 0⟩
        (strOf ("legacy@example.com")) (strOf ("LegacyPass123!"))
      = (401, Payload.err invalidMsg) := by
  refine ⟨?_, ?_, ?_⟩
  · exact (C10_username_email_coincide (fun _ => true) ⟨[], [], [], 0, 0⟩
      (strOf ("A@X.com")) (strOf ("GoodPass123!"))).1
      ⟨[⟨0, strOf ("a@x.com"), strOf ("a@x.com"), strOf ("GoodPass123!")⟩], [], [], 1, 0⟩
      0 (strOf ("a@x.com")) (strOf ("a@x.com")) (by decide)
  · exact (C10_username_email_coincide (fun _ => true)
      ⟨[⟨0, strOf ("a@x.com"), strOf ("a@x.com"), strOf ("GoodPass123!")⟩], [], [], 1, 0⟩
      (strOf ("A@X.com")) (strOf ("GoodPass123!"))).2.1
      0 (strOf ("a@x.com")) (strOf ("a@x.com")) (by decide)
  · exact (C10_username_email_coincide (fun _ => true)
      ⟨[⟨1, strOf ("legacy-user"), strOf ("legacy@example.com"), strOf ("LegacyPass123!")⟩],
        [], [], 2, 0⟩
      (strOf ("legacy@example.com")) (strOf ("LegacyPass123!"))).2.2
      (by decide)

theorem find?_room_unique (l : List RoomR) (c : Str) (r : RoomR) (hr : r ∈ l)
    (hc : r.join_code = c)
    (hd : l.Pairwise (fun a b => a.join_code ≠ b.join_code)) :
    l.find? (fun x => decide (x.join_code = c)) = some r := by
  induction l with
  | nil => cases hr
  | cons a t ih =>
    rw [List.pairwise_cons] at hd
    rcases List.mem_cons.mp hr with rfl | hrt
    · exact List.find?_cons_of_pos t (decide_eq_true hc)
    · have hne : a.join_code ≠ c := fun he => hd.1 r hrt (he.trans hc.symm)
      rw [List.find?_cons_of_neg t (by simpa using hne)]
      exact ih hrt hd.2

theorem join_view_eq_of_find?_none (st : St) (uid : Nat) (codeIn : Str)
    (h : st.rooms.find? (fun r => decide (r.join_code = pyUpper (pyStrip codeIn))) = none) :
    join_view st uid codeIn = (st, (404, JoinPayload.err (strOf ("invalid-code")))) := by
  simp only [join_view]
  rw [h]

theorem join_view_eq_of_find?_some (st : St) (uid : Nat) (codeIn : Str) (r : RoomR)
    (h : st.rooms.find? (fun x => decide (x.join_code = pyUpper (pyStrip codeIn))) = some r) :
    join_view st uid codeIn
      = (if (r.rid, uid) ∈ st.members then st
          else { st with members := st.members ++ [(r.rid, uid)] },
        (200, JoinPayload.room r.rid)) := by
  simp only [join_view]
  rw [h]

/-- C7: membership enrollment is idempotent — when a join succeeds, the
(room, identity) pair is recorded once; a second join by the same identity
with the same code succeeds again, adds no second Membership row, and leaves
exactly one row for the pair. -/
theorem C7_membership_idempotent (st : St) (uid : Nat) (codeIn : Str) (rid : Nat)
    (h1 : (join_view st uid codeIn).2.2 = JoinPayload.room rid)
    (h0 : st.members.countP (fun m => decide (m = (rid, uid))) = 0) :
    (join_view st uid codeIn).2.1 = 200
    ∧ (join_view st uid codeIn).1.members.countP (fun m => decide (m = (rid, uid))) = 1
    ∧ (join_view (join_view st uid codeIn).1 uid codeIn).2 = (200, JoinPayload.room rid)
    ∧ (join_view (join_view st uid codeIn).1 uid codeIn).1.members.countP
        (fun m => decide (m = (rid, uid))) = 1 := by
  cases hf : st.rooms.find? (fun x => decide (x.join_code = pyUpper (pyStrip codeIn))) with
  | none =>
    rw [join_view_eq_of_find?_none st uid codeIn hf] at h1
    simp at h1
  | some r =>
    rw [join_view_eq_of_find?_some st uid codeIn r hf] at h1
    simp only [] at h1
    injection h1 with hr
    subst hr
    have hnotmem : (r.rid, uid) ∉ st.members := by
      intro hm
      have h2 := List.countP_eq_zero.mp h0 _ hm
      simp at h2
    rw [join_view_eq_of_find?_some st uid codeIn r hf, if_neg hnotmem]
    have hmem1 : (r.rid, uid) ∈ st.members ++ [(r.rid, uid)] :=
      List.mem_append.mpr (Or.inr (by simp))
    rw [join_view_eq_of_find?_some { st with members := st.members ++ [(r.rid, uid)] }
      uid codeIn r hf, if_pos hmem1]
    refine ⟨rfl, ?_, rfl, ?_⟩
    · show (st.members ++ [(r.rid, uid)]).countP (fun m => decide (m = (r.rid, uid))) = 1
      rw [List.countP_append, h0]
      simp
    · show (st.members ++ [(r.rid, uid)]).countP (fun m => decide (m = (r.rid, uid))) = 1
      rw [List.countP_append, h0]
      simp

/-- Witness for C7 at a concrete store: joining twice with a lower-case,
whitespace-padded variant of the stored code leaves exactly one membership
row and both responses are 200 with the room. -/
theorem C7_membership_idempotent_witness :
    (join_view ⟨[], [⟨5, strOf ("Team"), strOf ("AB2CD3EF"), some 1, 10⟩], [], 0, 6⟩
        2 (strOf ("  ab2cd3ef "))).2.1 = 200
    ∧ (join_view ⟨[], [⟨5, strOf ("Team"), strOf ("AB2CD3EF"), some 1, 10⟩], [], 0, 6⟩
        2 (strOf ("  ab2cd3ef "))).1.members.countP (fun m => decide (m = (5, 2))) = 1
    ∧ (join_view (join_view ⟨[], [⟨5, strOf ("Team"), strOf ("AB2CD3EF"), some 1, 10⟩],
          [], 0, 6⟩ 2 (strOf ("  ab2cd3ef "))).1 2 (strOf ("  ab2cd3ef "))).2
        = (200, JoinPayload.room 5)
    ∧ (join_view (join_view ⟨[], [⟨5, strOf ("Team"), strOf ("AB2CD3EF"), some 1, 10⟩],
          [], 0, 6⟩ 2 (strOf ("  ab2cd3ef "))).1 2 (strOf ("  ab2cd3ef "))).1.members.countP
        (fun m => decide (m = (5, 2))) = 1 :=
  C7_membership_idempotent ⟨[], [⟨5, strOf ("Team"), strOf ("AB2CD3EF"), some 1, 10⟩], [], 0, 6⟩
    2 (strOf ("  ab2cd3ef ")) 5 (by decide) (by decide)

/-- C8: room lookup by join code is case-insensitive on the canonical
uppercase form — the submitted code is trimmed and upper-cased before an
exact lookup, so any letter-case variant with surrounding whitespace finds
the stored room (join codes being pairwise distinct); and when no room's
code matches the normalised input, the join fails with 404 and the
invalid-code message. -/
theorem C8_join_code_lookup (st : St) (uid : Nat) (codeIn : Str) (r : RoomR) :
    (r ∈ st.rooms → st.rooms.Pairwise (fun a b => a.join_code ≠ b.join_code) →
      pyUpper (pyStrip codeIn) = r.join_code →
      (join_view st uid codeIn).2 = (200, JoinPayload.room r.rid))
    ∧ ((∀ r2, r2 ∈ st.rooms → r2.join_code ≠ pyUpper (pyStrip codeIn)) →
      (join_view st uid codeIn).2 = (404, JoinPayload.err (strOf ("invalid-code")))) := by
  constructor
  · intro hr hd hc
    rw [join_view_eq_of_find?_some st uid codeIn r
      (find?_room_unique st.rooms (pyUpper (pyStrip codeIn)) r hr hc.symm hd)]
  · intro hnone
    rw [join_view_eq_of_find?_none st uid codeIn (List.find?_eq_none.mpr (by
      intro x hx
      simpa using hnone x hx))]

/-- Witness for C8 at a concrete store: a case-changed, whitespace-padded
variant of the stored code finds the room, and a fabricated code yields 404. -/
theorem C8_join_code_lookup_witness :
    (join_view ⟨[], [⟨7, strOf ("Team"), strOf ("AB2CD3EF"), some 1, 10⟩], [], 0, 8⟩
        2 (strOf (" ab2Cd3eF "))).2 = (200, JoinPayload.room 7)
    ∧ (join_view ⟨[], [⟨7, strOf ("Team"), strOf ("AB2CD3EF"), some 1, 10⟩], [], 0, 8⟩
        2 (strOf ("ZZZZZZZZ"))).2 = (404, JoinPayload.err (strOf ("invalid-code"))) := by
  constructor
  · exact (C8_join_code_lookup ⟨[], [⟨7, strOf ("Team"), strOf ("AB2CD3EF"), some 1, 10⟩],
      [], 0, 8⟩ 2 (strOf (" ab2Cd3eF ")) ⟨7, strOf ("Team"), strOf ("AB2CD3EF"), some 1, 10⟩).1
      (by decide) (by simp) (by decide)
  · exact (C8_join_code_lookup ⟨[], [⟨7, strOf ("Team"), strOf ("AB2CD3EF"), some 1, 10⟩],
      [], 0, 8⟩ 2 (strOf ("ZZZZZZZZ")) ⟨7, strOf ("Team"), strOf ("AB2CD3EF"), some 1, 10⟩).2
      (by decide)

end CollabRooms
